import Mathlib

/-!
Shallow embedding of the georouting Cloudflare Worker (src/src/index.js and
the logging variant in src/unnamed/part_000) together with theorems about
its routing behaviour.

The worker holds three compiled-in association tables (`RTMP_SERVERS`,
`CONTINENT_TO_REGION`, `COUNTRY_OVERRIDES`), a pure routing decision
function `determineClosestServer`, and an HTTP handler `handleRequest`
that either forwards a request unmodified or answers a 302 redirect.
JS object literals used as dictionaries are modelled as association lists
over `String`; JS `undefined` is modelled with `Option`; the truthiness
tests `cf.country && TABLE[cf.country]` are modelled by explicit matches
that also treat the empty string as falsy, as JS does.
-/

namespace GeoRouting

/-- Association-list lookup, modelling property access `obj[key]` on the
worker's literal configuration objects (own keys only); `none` models the
JS result `undefined` for a missing key. -/
def lookupTable : List (String × String) → String → Option String
  | [], _ => none
  | (k, v) :: rest, key => if key = k then some v else lookupTable rest key

/-- The table `RTMP_SERVERS` of src/src/index.js lines 8-18: region
identifier to destination hostname. -/
def RTMP_SERVERS : List (String × String) :=
  [("europe", "eu.streammy.io"),
   ("americas", "eu.streammy.io"),
   ("asia", "eu.streammy.io"),
   ("default", "eu.streammy.io")]

/-- The table `CONTINENT_TO_REGION` of src/src/index.js lines 21-29:
two-letter continent code to region identifier. -/
def CONTINENT_TO_REGION : List (String × String) :=
  [("EU", "europe"),
   ("NA", "americas"),
   ("SA", "americas"),
   ("AS", "asia"),
   ("OC", "asia"),
   ("AF", "europe"),
   ("AN", "europe")]

/-- The table `COUNTRY_OVERRIDES` of src/src/index.js lines 32-39:
two-letter country code to region identifier, taking precedence over the
continent mapping. -/
def COUNTRY_OVERRIDES : List (String × String) :=
  [("RU", "europe"),
   ("TR", "europe"),
   ("EG", "europe"),
   ("AU", "asia"),
   ("NZ", "asia")]

/-- The geolocation descriptor `request.cf` as consumed by the worker:
only the `country` and `continent` fields are read on the routing path.
`none` in a field models an absent (JS `undefined`) field. -/
structure CfData where
  country : Option String
  continent : Option String
deriving Repr, DecidableEq

/-- The value `RTMP_SERVERS[region]` as it is returned by
`determineClosestServer`; the `"undefined"` branch models the string
coercion of the JS `undefined` a missing key would yield (shown
unreachable for every region the tables produce). -/
def rtmpServer (region : String) : String :=
  (lookupTable RTMP_SERVERS region).getD "undefined"

/-- The continent branch and final fallback of `determineClosestServer`
(src/src/index.js lines 61-68): `if (cf.continent &&
CONTINENT_TO_REGION[cf.continent])` return the region's server, else
`RTMP_SERVERS.default`. The empty-string tests reproduce JS truthiness. -/
def continentFallback (c : CfData) : String :=
  match c.continent with
  | some ct =>
    if ct = "" then rtmpServer "default"
    else
      match lookupTable CONTINENT_TO_REGION ct with
      | some region =>
        if region = "" then rtmpServer "default" else rtmpServer region
      | none => rtmpServer "default"
  | none => rtmpServer "default"

/-- `determineClosestServer` of src/src/index.js lines 46-69, as a function
of the geolocation descriptor `request.cf` (the only part of the request it
reads): `if (!cf) return RTMP_SERVERS.default;` then the country-override
guard `if (cf.country && COUNTRY_OVERRIDES[cf.country])`, then the
continent branch and the default fallback. -/
def determineClosestServer (cf : Option CfData) : String :=
  match cf with
  | none => rtmpServer "default"
  | some c =>
    match c.country with
    | some co =>
      if co = "" then continentFallback c
      else
        match lookupTable COUNTRY_OVERRIDES co with
        | some region =>
          if region = "" then continentFallback c else rtmpServer region
        | none => continentFallback c
    | none => continentFallback c

/-- The parts of the inbound HTTP request the worker reads: the URL
components produced by `new URL(request.url)` (`url.hostname`,
`url.pathname`, `url.search`) and the geolocation descriptor
`request.cf`. -/
structure GeoRequest where
  hostname : String
  pathname : String
  search : String
  cf : Option CfData
deriving Repr

/-- An HTTP response as the worker constructs or forwards it: status,
optional body (`none` models a `null` body) and a header list in
construction order. -/
structure GeoResponse where
  status : Nat
  body : Option String
  headers : List (String × String)
deriving Repr, DecidableEq

/-- Header lookup on a response. -/
def getHeader (r : GeoResponse) (name : String) : Option String :=
  lookupTable r.headers name

/-- JS `x || d` for a string-or-undefined `x`: `undefined` and the empty
string are falsy and fall through to the default. -/
def jsOr (o : Option String) (d : String) : String :=
  match o with
  | some s => if s = "" then d else s
  | none => d

/-- The characters before the first `.` of a character list. -/
def takeUntilDot : List Char → List Char
  | [] => []
  | c :: rest => if c = '.' then [] else c :: takeUntilDot rest

/-- JS `s.split('.')[0]`: the prefix of `s` before its first `.` (the
whole of `s` when it has no `.`). -/
def splitHead (s : String) : String :=
  ⟨takeUntilDot s.data⟩

/-- `handleRequest` of src/src/index.js lines 74-101 (the variant without
logging). The upstream `fetch` collaborator is passed explicitly as
`fetchUpstream`; `Except.error` models a thrown exception. Requests whose
hostname is not `live.streammy.io` are forwarded unmodified; otherwise the
302 redirect response is built with `Location`, `Cache-Control` and
`X-Streammy-Region` headers. -/
def handleRequest (fetchUpstream : GeoRequest → Except String GeoResponse)
    (request : GeoRequest) : Except String GeoResponse :=
  if request.hostname ≠ "live.streammy.io" then
    fetchUpstream request
  else
    let closestServer := determineClosestServer request.cf
    let targetUrl := "https://" ++ closestServer ++ request.pathname ++ request.search
    Except.ok
      { status := 302
        body := none
        headers := [("Location", targetUrl),
                    ("Cache-Control", "no-cache"),
                    ("X-Streammy-Region", splitHead closestServer)] }

/-- `handleRequest` of src/unnamed/part_000 lines 74-123 (the variant with
logging and timing). The log-only fields of `logData` (timestamp, client
IP, user agent, sub-region) feed only the console sink and are not
modelled; the fields that reach the response headers —
`logData.country = request.cf?.country || 'unknown'`,
`logData.continent = request.cf?.continent || 'unknown'`,
`logData.serverRegion = closestServer.split('.')[0]` — are. -/
def handleRequestLogged (fetchUpstream : GeoRequest → Except String GeoResponse)
    (request : GeoRequest) : Except String GeoResponse :=
  let country := jsOr (request.cf.bind CfData.country) "unknown"
  let continent := jsOr (request.cf.bind CfData.continent) "unknown"
  if request.hostname ≠ "live.streammy.io" then
    fetchUpstream request
  else
    let closestServer := determineClosestServer request.cf
    let serverRegion := splitHead closestServer
    let targetUrl := "https://" ++ closestServer ++ request.pathname ++ request.search
    Except.ok
      { status := 302
        body := none
        headers := [("Location", targetUrl),
                    ("Cache-Control", "no-cache"),
                    ("X-Streammy-Region", serverRegion),
                    ("X-Streammy-Country", country),
                    ("X-Streammy-Continent", continent)] }

/-- The exported `fetch` entry point of src/src/index.js lines 104-108:
it returns `handleRequest(request)` with no try/catch. -/
def workerFetchPlain (fetchUpstream : GeoRequest → Except String GeoResponse)
    (request : GeoRequest) : Except String GeoResponse :=
  handleRequest fetchUpstream request

/-- The exported `fetch` entry point of src/unnamed/part_000 lines
126-157: awaits `handleRequest(request)` inside try/catch and converts any
thrown error into a 500 plain-text response carrying the error message. -/
def workerFetch (fetchUpstream : GeoRequest → Except String GeoResponse)
    (request : GeoRequest) : Except String GeoResponse :=
  match handleRequestLogged fetchUpstream request with
  | Except.ok response => Except.ok response
  | Except.error e =>
      Except.ok
        { status := 500
          body := some ("Internal Server Error: " ++ e)
          headers := [("Content-Type", "text/plain")] }

/-- The country-override guard of `determineClosestServer` fails for this
descriptor: the `country` field is absent or is not a key of
`COUNTRY_OVERRIDES`. -/
def noCountryOverride (c : CfData) : Bool :=
  match c.country with
  | some co => (lookupTable COUNTRY_OVERRIDES co).isNone
  | none => true

/-- The continent guard of `determineClosestServer` fails for this
descriptor: the `continent` field is absent or is not a key of
`CONTINENT_TO_REGION`. -/
def noContinentRegion (c : CfData) : Bool :=
  match c.continent with
  | some ct => (lookupTable CONTINENT_TO_REGION ct).isNone
  | none => true

section Lemmas

/-- A successful lookup returns a pair of the list. -/
theorem lookupTable_mem :
    ∀ (m : List (String × String)) (key v : String),
      lookupTable m key = some v → (key, v) ∈ m := by
  intro m
  induction m with
  | nil => intro key v h; simp [lookupTable] at h
  | cons p rest ih =>
    intro key v h
    obtain ⟨k, w⟩ := p
    simp only [lookupTable] at h
    split at h
    · rename_i hk
      subst hk
      cases h
      exact List.mem_cons_self _ _
    · exact List.mem_cons_of_mem _ (ih key v h)

/-- Every entry of the country-override table has a nonempty key, a
nonempty region value, and its region resolves in the region table. -/
theorem country_override_entry {co region : String}
    (h : lookupTable COUNTRY_OVERRIDES co = some region) :
    co ≠ "" ∧ region ≠ "" ∧
      lookupTable RTMP_SERVERS region = some "eu.streammy.io" := by
  have hm := lookupTable_mem _ _ _ h
  simp only [COUNTRY_OVERRIDES, List.mem_cons, List.not_mem_nil, or_false,
    Prod.mk.injEq] at hm
  rcases hm with ⟨h1, h2⟩ | ⟨h1, h2⟩ | ⟨h1, h2⟩ | ⟨h1, h2⟩ | ⟨h1, h2⟩ <;>
    subst h1 <;> subst h2 <;> exact ⟨by decide, by decide, by decide⟩

/-- Every entry of the continent table has a nonempty key, a nonempty
region value, and its region resolves in the region table. -/
theorem continent_region_entry {ct region : String}
    (h : lookupTable CONTINENT_TO_REGION ct = some region) :
    ct ≠ "" ∧ region ≠ "" ∧
      lookupTable RTMP_SERVERS region = some "eu.streammy.io" := by
  have hm := lookupTable_mem _ _ _ h
  simp only [CONTINENT_TO_REGION, List.mem_cons, List.not_mem_nil, or_false,
    Prod.mk.injEq] at hm
  rcases hm with ⟨h1, h2⟩ | ⟨h1, h2⟩ | ⟨h1, h2⟩ | ⟨h1, h2⟩ | ⟨h1, h2⟩ |
    ⟨h1, h2⟩ | ⟨h1, h2⟩ <;>
    subst h1 <;> subst h2 <;> exact ⟨by decide, by decide, by decide⟩

/-- The continent branch always produces the single configured hostname. -/
theorem continentFallback_eq (c : CfData) :
    continentFallback c = "eu.streammy.io" := by
  unfold continentFallback
  split
  · split_ifs with he
    · decide
    · split
      · rename_i region heq
        obtain ⟨-, hr, hrt⟩ := continent_region_entry heq
        simp [hr, rtmpServer, hrt]
      · decide
  · decide

/-- The routing decision always produces the single configured hostname. -/
theorem determineClosestServer_const (cf : Option CfData) :
    determineClosestServer cf = "eu.streammy.io" := by
  unfold determineClosestServer
  split
  · decide
  · rename_i c
    split
    · rename_i co hco
      split_ifs with he
      · exact continentFallback_eq c
      · split
        · rename_i region heq
          obtain ⟨-, hr, hrt⟩ := country_override_entry heq
          simp [hr, rtmpServer, hrt]
        · exact continentFallback_eq c
    · exact continentFallback_eq c

/-- A lookup that succeeds on a list still succeeds, with the same value,
after entries are appended on the right. -/
theorem lookupTable_append_left {l l' : List (String × String)}
    {key v : String} (h : lookupTable l key = some v) :
    lookupTable (l ++ l') key = some v := by
  induction l with
  | nil => simp [lookupTable] at h
  | cons p rest ih =>
    obtain ⟨k, w⟩ := p
    simp only [lookupTable, List.cons_append] at h ⊢
    split at h
    · rename_i hk
      simp [hk, h]
    · rename_i hk
      simp only [if_neg hk]
      exact ih h

/-- When the country-override guard fires, the routing decision takes the
override branch. -/
theorem determineClosestServer_override (co region : String)
    (cont : Option String) (hco : co ≠ "")
    (h : lookupTable COUNTRY_OVERRIDES co = some region) (hr : region ≠ "") :
    determineClosestServer (some ⟨some co, cont⟩) = rtmpServer region := by
  simp only [determineClosestServer]
  simp only [if_neg hco, h, if_neg hr]

/-- When the country-override guard fails, the routing decision falls
through to the continent branch. -/
theorem determineClosestServer_fallback (c : CfData)
    (h : noCountryOverride c = true) :
    determineClosestServer (some c) = continentFallback c := by
  obtain ⟨country, continent⟩ := c
  cases country with
  | none => simp [determineClosestServer]
  | some co =>
    simp only [noCountryOverride] at h
    rw [Option.isNone_iff_eq_none] at h
    by_cases he : co = ""
    · simp [determineClosestServer, he]
    · simp [determineClosestServer, he, h]

/-- When the continent guard fires, the continent branch returns the
server of the mapped region. -/
theorem continentFallback_hit (c : CfData) (ct region : String)
    (hct : c.continent = some ct) (hcte : ct ≠ "")
    (h : lookupTable CONTINENT_TO_REGION ct = some region) (hr : region ≠ "") :
    continentFallback c = rtmpServer region := by
  unfold continentFallback
  simp only [hct, if_neg hcte, h, if_neg hr]

/-- When the continent guard fails, the continent branch returns the
default server. -/
theorem continentFallback_default (c : CfData)
    (h : noContinentRegion c = true) :
    continentFallback c = rtmpServer "default" := by
  obtain ⟨country, continent⟩ := c
  cases continent with
  | none => rfl
  | some ct =>
    simp only [noContinentRegion] at h
    rw [Option.isNone_iff_eq_none] at h
    by_cases he : ct = ""
    · simp [continentFallback, he]
    · simp [continentFallback, he, h]

/-- On the target hostname, the plain handler answers the literal redirect
response. -/
theorem handleRequest_redirect
    (fetchUpstream : GeoRequest → Except String GeoResponse)
    (request : GeoRequest) (h : request.hostname = "live.streammy.io") :
    handleRequest fetchUpstream request = Except.ok
      { status := 302
        body := none
        headers := [("Location", "https://" ++ determineClosestServer request.cf ++
                      request.pathname ++ request.search),
                    ("Cache-Control", "no-cache"),
                    ("X-Streammy-Region",
                      splitHead (determineClosestServer request.cf))] } := by
  unfold handleRequest
  rw [if_neg (by simp [h])]

/-- On the target hostname, the logged handler answers the literal
redirect response with the two extra diagnostic headers. -/
theorem handleRequestLogged_redirect
    (fetchUpstream : GeoRequest → Except String GeoResponse)
    (request : GeoRequest) (h : request.hostname = "live.streammy.io") :
    handleRequestLogged fetchUpstream request = Except.ok
      { status := 302
        body := none
        headers := [("Location", "https://" ++ determineClosestServer request.cf ++
                      request.pathname ++ request.search),
                    ("Cache-Control", "no-cache"),
                    ("X-Streammy-Region",
                      splitHead (determineClosestServer request.cf)),
                    ("X-Streammy-Country",
                      jsOr (request.cf.bind CfData.country) "unknown"),
                    ("X-Streammy-Continent",
                      jsOr (request.cf.bind CfData.continent) "unknown")] } := by
  unfold handleRequestLogged
  rw [if_neg (by simp [h])]

/-- Off the target hostname, the plain handler forwards to the upstream
collaborator. -/
theorem handleRequest_passthrough
    (fetchUpstream : GeoRequest → Except String GeoResponse)
    (request : GeoRequest) (h : ¬request.hostname = "live.streammy.io") :
    handleRequest fetchUpstream request = fetchUpstream request := by
  unfold handleRequest
  rw [if_pos h]

/-- Off the target hostname, the logged handler forwards to the upstream
collaborator. -/
theorem handleRequestLogged_passthrough
    (fetchUpstream : GeoRequest → Except String GeoResponse)
    (request : GeoRequest) (h : ¬request.hostname = "live.streammy.io") :
    handleRequestLogged fetchUpstream request = fetchUpstream request := by
  unfold handleRequestLogged
  rw [if_pos h]

/-- JS `x || d` agrees with `Option.getD` whenever a present value is
nonempty. -/
theorem jsOr_getD {o : Option String} {d : String} (h : o ≠ some "") :
    jsOr o d = o.getD d := by
  cases o with
  | none => rfl
  | some s =>
    have hs : s ≠ "" := fun e => h (by rw [e])
    simp [jsOr, hs]

end Lemmas

/-- C1: for every geolocation descriptor whose country field is present
and is a key of the country-override table, `determineClosestServer`
returns the region-table entry for that country's mapped region,
regardless of the continent field. -/
theorem c1_country_override (co region : String) (cont : Option String)
    (h : lookupTable COUNTRY_OVERRIDES co = some region) :
    ∃ hostname, lookupTable RTMP_SERVERS region = some hostname ∧
      determineClosestServer (some ⟨some co, cont⟩) = hostname := by
  obtain ⟨hco, hr, hrt⟩ := country_override_entry h
  refine ⟨"eu.streammy.io", hrt, ?_⟩
  rw [determineClosestServer_override co region cont hco h hr]
  simp [rtmpServer, hrt]

/-- Witness for C1: country TR is overridden to europe even though
continent AS would map to asia. -/
theorem c1_country_override_witness :
    lookupTable COUNTRY_OVERRIDES "TR" = some "europe" ∧
    ∃ hostname, lookupTable RTMP_SERVERS "europe" = some hostname ∧
      determineClosestServer (some ⟨some "TR", some "AS"⟩) = hostname :=
  ⟨by decide, c1_country_override "TR" "europe" (some "AS") (by decide)⟩

/-- C2: for every descriptor whose country is absent or not a key of the
country-override table but whose continent is present and is a key of the
continent table, `determineClosestServer` returns the region-table entry
for that continent's mapped region. -/
theorem c2_continent_route (c : CfData) (ct region : String)
    (hno : noCountryOverride c = true)
    (hct : c.continent = some ct)
    (h : lookupTable CONTINENT_TO_REGION ct = some region) :
    ∃ hostname, lookupTable RTMP_SERVERS region = some hostname ∧
      determineClosestServer (some c) = hostname := by
  obtain ⟨hcte, hr, hrt⟩ := continent_region_entry h
  refine ⟨"eu.streammy.io", hrt, ?_⟩
  rw [determineClosestServer_fallback c hno,
    continentFallback_hit c ct region hct hcte h hr]
  simp [rtmpServer, hrt]

/-- Witness for C2: country FR has no override, continent EU maps to
europe. -/
theorem c2_continent_route_witness :
    noCountryOverride ⟨some "FR", some "EU"⟩ = true ∧
    (⟨some "FR", some "EU"⟩ : CfData).continent = some "EU" ∧
    lookupTable CONTINENT_TO_REGION "EU" = some "europe" ∧
    ∃ hostname, lookupTable RTMP_SERVERS "europe" = some hostname ∧
      determineClosestServer (some ⟨some "FR", some "EU"⟩) = hostname :=
  ⟨by decide, rfl, by decide,
    c2_continent_route ⟨some "FR", some "EU"⟩ "EU" "europe"
      (by decide) rfl (by decide)⟩

/-- C3: `determineClosestServer` is total and returns the region table's
default entry both for an absent descriptor and for every descriptor with
neither a recognized country nor a recognized continent. -/
theorem c3_total_default :
    determineClosestServer none = rtmpServer "default" ∧
    ∀ c : CfData, noCountryOverride c = true → noContinentRegion c = true →
      determineClosestServer (some c) = rtmpServer "default" := by
  refine ⟨rfl, fun c h1 h2 => ?_⟩
  rw [determineClosestServer_fallback c h1, continentFallback_default c h2]

/-- Witness for C3: the unrecognized codes ZZ / XX fall through to the
default entry. -/
theorem c3_total_default_witness :
    noCountryOverride ⟨some "ZZ", some "XX"⟩ = true ∧
    noContinentRegion ⟨some "ZZ", some "XX"⟩ = true ∧
    determineClosestServer (some ⟨some "ZZ", some "XX"⟩) = rtmpServer "default" :=
  ⟨by decide, by decide,
    c3_total_default.2 ⟨some "ZZ", some "XX"⟩ (by decide) (by decide)⟩

/-- C4: on the target hostname, both handler variants answer a 302 with
an empty body, `Cache-Control: no-cache`, and a `Location` of
`https://` + resolved hostname + the request's path and query unchanged. -/
theorem c4_redirect_response
    (fetchUpstream : GeoRequest → Except String GeoResponse)
    (request : GeoRequest) (h : request.hostname = "live.streammy.io") :
    (∃ resp, handleRequest fetchUpstream request = Except.ok resp ∧
      resp.status = 302 ∧ resp.body = none ∧
      getHeader resp "Cache-Control" = some "no-cache" ∧
      getHeader resp "Location" =
        some ("https://" ++ determineClosestServer request.cf ++
          request.pathname ++ request.search)) ∧
    (∃ resp, handleRequestLogged fetchUpstream request = Except.ok resp ∧
      resp.status = 302 ∧ resp.body = none ∧
      getHeader resp "Cache-Control" = some "no-cache" ∧
      getHeader resp "Location" =
        some ("https://" ++ determineClosestServer request.cf ++
          request.pathname ++ request.search)) :=
  ⟨⟨_, handleRequest_redirect fetchUpstream request h, rfl, rfl, rfl, rfl⟩,
   ⟨_, handleRequestLogged_redirect fetchUpstream request h, rfl, rfl, rfl, rfl⟩⟩

/-- Witness for C4 at a concrete redirect request. -/
theorem c4_redirect_response_witness :
    (⟨"live.streammy.io", "/stream/abc", "?token=123",
        some ⟨some "FR", some "EU"⟩⟩ : GeoRequest).hostname =
      "live.streammy.io" ∧
    ((∃ resp, handleRequest (fun _ => Except.error "upstream")
        ⟨"live.streammy.io", "/stream/abc", "?token=123",
          some ⟨some "FR", some "EU"⟩⟩ = Except.ok resp ∧
      resp.status = 302 ∧ resp.body = none ∧
      getHeader resp "Cache-Control" = some "no-cache" ∧
      getHeader resp "Location" =
        some ("https://" ++
          determineClosestServer (some ⟨some "FR", some "EU"⟩) ++
          "/stream/abc" ++ "?token=123")) ∧
    (∃ resp, handleRequestLogged (fun _ => Except.error "upstream")
        ⟨"live.streammy.io", "/stream/abc", "?token=123",
          some ⟨some "FR", some "EU"⟩⟩ = Except.ok resp ∧
      resp.status = 302 ∧ resp.body = none ∧
      getHeader resp "Cache-Control" = some "no-cache" ∧
      getHeader resp "Location" =
        some ("https://" ++
          determineClosestServer (some ⟨some "FR", some "EU"⟩) ++
          "/stream/abc" ++ "?token=123"))) :=
  ⟨rfl, c4_redirect_response (fun _ => Except.error "upstream")
    ⟨"live.streammy.io", "/stream/abc", "?token=123",
      some ⟨some "FR", some "EU"⟩⟩ rfl⟩

/-- C5: off the target hostname, both handler variants return the
forwarded upstream response verbatim. -/
theorem c5_passthrough_verbatim
    (fetchUpstream : GeoRequest → Except String GeoResponse)
    (request : GeoRequest) (h : ¬request.hostname = "live.streammy.io") :
    handleRequest fetchUpstream request = fetchUpstream request ∧
    handleRequestLogged fetchUpstream request = fetchUpstream request :=
  ⟨handleRequest_passthrough fetchUpstream request h,
   handleRequestLogged_passthrough fetchUpstream request h⟩

/-- Witness for C5 at a concrete non-target request. -/
theorem c5_passthrough_verbatim_witness :
    ¬(⟨"other.example.io", "/a", "", none⟩ : GeoRequest).hostname =
        "live.streammy.io" ∧
    (handleRequest (fun _ => Except.ok ⟨200, some "up", []⟩)
        ⟨"other.example.io", "/a", "", none⟩ =
      (fun _ => Except.ok (⟨200, some "up", []⟩ : GeoResponse))
        (⟨"other.example.io", "/a", "", none⟩ : GeoRequest) ∧
    handleRequestLogged (fun _ => Except.ok ⟨200, some "up", []⟩)
        ⟨"other.example.io", "/a", "", none⟩ =
      (fun _ => Except.ok (⟨200, some "up", []⟩ : GeoResponse))
        (⟨"other.example.io", "/a", "", none⟩ : GeoRequest)) :=
  ⟨by decide, c5_passthrough_verbatim (fun _ => Except.ok ⟨200, some "up", []⟩)
    ⟨"other.example.io", "/a", "", none⟩ (by decide)⟩

/-- C6: the exported entry point never propagates an error, and whenever
the inner handler throws, the caller receives a 500 plain-text response
whose body contains the error message. -/
theorem c6_error_boundary
    (fetchUpstream : GeoRequest → Except String GeoResponse)
    (request : GeoRequest) :
    (∃ resp, workerFetch fetchUpstream request = Except.ok resp) ∧
    (∀ e, handleRequestLogged fetchUpstream request = Except.error e →
      ∃ resp, workerFetch fetchUpstream request = Except.ok resp ∧
        resp.status = 500 ∧
        getHeader resp "Content-Type" = some "text/plain" ∧
        ∃ pre, resp.body = some (pre ++ e)) := by
  constructor
  · unfold workerFetch
    cases h : handleRequestLogged fetchUpstream request with
    | ok r => exact ⟨r, rfl⟩
    | error e => exact ⟨_, rfl⟩
  · intro e he
    unfold workerFetch
    rw [he]
    exact ⟨_, rfl, rfl, rfl, ⟨"Internal Server Error: ", rfl⟩⟩

/-- Witness for C6: a failing upstream fetch on a pass-through request
surfaces as a 500 carrying the message. -/
theorem c6_error_boundary_witness :
    handleRequestLogged (fun _ => Except.error "boom")
        ⟨"other.example.io", "", "", none⟩ = Except.error "boom" ∧
    (∃ resp, workerFetch (fun _ => Except.error "boom")
        ⟨"other.example.io", "", "", none⟩ = Except.ok resp ∧
      resp.status = 500 ∧
      getHeader resp "Content-Type" = some "text/plain" ∧
      ∃ pre, resp.body = some (pre ++ "boom")) :=
  ⟨rfl, (c6_error_boundary (fun _ => Except.error "boom")
    ⟨"other.example.io", "", "", none⟩).2 "boom" rfl⟩

/-- C7: whenever the plain entry point (src/src/index.js) produces a
response, the logged entry point (src/unnamed/part_000) produces one with
the same status and body whose headers extend the plain variant's. -/
theorem c7_logged_extends_plain
    (fetchUpstream : GeoRequest → Except String GeoResponse)
    (request : GeoRequest) (r : GeoResponse)
    (h : workerFetchPlain fetchUpstream request = Except.ok r) :
    ∃ r2, workerFetch fetchUpstream request = Except.ok r2 ∧
      r2.status = r.status ∧ r2.body = r.body ∧
      ∀ name v, getHeader r name = some v → getHeader r2 name = some v := by
  by_cases hh : request.hostname = "live.streammy.io"
  · unfold workerFetchPlain at h
    rw [handleRequest_redirect fetchUpstream request hh] at h
    cases h
    unfold workerFetch
    rw [handleRequestLogged_redirect fetchUpstream request hh]
    refine ⟨_, rfl, rfl, rfl, fun name v hv => ?_⟩
    exact lookupTable_append_left hv
  · unfold workerFetchPlain at h
    rw [handleRequest_passthrough fetchUpstream request hh] at h
    unfold workerFetch
    rw [handleRequestLogged_passthrough fetchUpstream request hh, h]
    exact ⟨r, rfl, rfl, rfl, fun name v hv => hv⟩

/-- Witness for C7 at a concrete redirect request. -/
theorem c7_logged_extends_plain_witness :
    workerFetchPlain (fun _ => Except.ok ⟨200, some "up", []⟩)
        ⟨"live.streammy.io", "/p", "?q=1", none⟩ =
      Except.ok ⟨302, none,
        [("Location", "https://eu.streammy.io/p?q=1"),
         ("Cache-Control", "no-cache"),
         ("X-Streammy-Region", "eu")]⟩ ∧
    (∃ r2, workerFetch (fun _ => Except.ok ⟨200, some "up", []⟩)
        ⟨"live.streammy.io", "/p", "?q=1", none⟩ = Except.ok r2 ∧
      r2.status = (⟨302, none,
        [("Location", "https://eu.streammy.io/p?q=1"),
         ("Cache-Control", "no-cache"),
         ("X-Streammy-Region", "eu")]⟩ : GeoResponse).status ∧
      r2.body = (⟨302, none,
        [("Location", "https://eu.streammy.io/p?q=1"),
         ("Cache-Control", "no-cache"),
         ("X-Streammy-Region", "eu")]⟩ : GeoResponse).body ∧
      ∀ name v,
        getHeader (⟨302, none,
          [("Location", "https://eu.streammy.io/p?q=1"),
           ("Cache-Control", "no-cache"),
           ("X-Streammy-Region", "eu")]⟩ : GeoResponse) name = some v →
        getHeader r2 name = some v) :=
  ⟨rfl, c7_logged_extends_plain (fun _ => Except.ok ⟨200, some "up", []⟩)
    ⟨"live.streammy.io", "/p", "?q=1", none⟩
    ⟨302, none,
      [("Location", "https://eu.streammy.io/p?q=1"),
       ("Cache-Control", "no-cache"),
       ("X-Streammy-Region", "eu")]⟩ rfl⟩

/-- C8: on the redirect path the diagnostic headers hold the first
`.`-separated component of the destination hostname, the detected country
code or the sentinel `unknown` when absent, and the detected continent
code or `unknown` when absent (codes, when present, are nonempty). -/
theorem c8_diagnostic_headers
    (fetchUpstream : GeoRequest → Except String GeoResponse)
    (request : GeoRequest) (h : request.hostname = "live.streammy.io")
    (hco : request.cf.bind CfData.country ≠ some "")
    (hct : request.cf.bind CfData.continent ≠ some "") :
    ∃ resp, handleRequestLogged fetchUpstream request = Except.ok resp ∧
      getHeader resp "X-Streammy-Region" =
        some (splitHead (determineClosestServer request.cf)) ∧
      getHeader resp "X-Streammy-Country" =
        some ((request.cf.bind CfData.country).getD "unknown") ∧
      getHeader resp "X-Streammy-Continent" =
        some ((request.cf.bind CfData.continent).getD "unknown") := by
  refine ⟨_, handleRequestLogged_redirect fetchUpstream request h, rfl, ?_, ?_⟩
  · show some (jsOr (request.cf.bind CfData.country) "unknown") = _
    rw [jsOr_getD hco]
  · show some (jsOr (request.cf.bind CfData.continent) "unknown") = _
    rw [jsOr_getD hct]

/-- Witness for C8: country RU detected, continent absent. -/
theorem c8_diagnostic_headers_witness :
    (⟨"live.streammy.io", "/s", "", some ⟨some "RU", none⟩⟩ :
        GeoRequest).hostname = "live.streammy.io" ∧
    ((some ⟨some "RU", none⟩ : Option CfData).bind CfData.country ≠ some "") ∧
    ((some ⟨some "RU", none⟩ : Option CfData).bind CfData.continent ≠ some "") ∧
    (∃ resp, handleRequestLogged (fun _ => Except.error "upstream")
        ⟨"live.streammy.io", "/s", "", some ⟨some "RU", none⟩⟩ =
          Except.ok resp ∧
      getHeader resp "X-Streammy-Region" =
        some (splitHead (determineClosestServer (some ⟨some "RU", none⟩))) ∧
      getHeader resp "X-Streammy-Country" =
        some (((some ⟨some "RU", none⟩ : Option CfData).bind
          CfData.country).getD "unknown") ∧
      getHeader resp "X-Streammy-Continent" =
        some (((some ⟨some "RU", none⟩ : Option CfData).bind
          CfData.continent).getD "unknown")) :=
  ⟨rfl, by decide, by decide,
    c8_diagnostic_headers (fun _ => Except.error "upstream")
      ⟨"live.streammy.io", "/s", "", some ⟨some "RU", none⟩⟩
      rfl (by decide) (by decide)⟩

/-- C9: every region value of the continent table and of the
country-override table is a key of the region table, and the region table
has a `default` entry. -/
theorem c9_tables_closed :
    ((CONTINENT_TO_REGION.all fun p => (lookupTable RTMP_SERVERS p.2).isSome) &&
     (COUNTRY_OVERRIDES.all fun p => (lookupTable RTMP_SERVERS p.2).isSome) &&
     (lookupTable RTMP_SERVERS "default").isSome) = true := by
  decide

/-- C10: with the compiled-in tables the routing decision is the constant
`eu.streammy.io`; consequently every redirect's `Location` targets that
host and the region-label header is always `eu`. -/
theorem c10_constant_hostname :
    (∀ cf : Option CfData, determineClosestServer cf = "eu.streammy.io") ∧
    (∀ (fetchUpstream : GeoRequest → Except String GeoResponse)
        (request : GeoRequest),
      request.hostname = "live.streammy.io" →
      ∃ resp, handleRequestLogged fetchUpstream request = Except.ok resp ∧
        getHeader resp "Location" =
          some ("https://eu.streammy.io" ++ request.pathname ++ request.search) ∧
        getHeader resp "X-Streammy-Region" = some "eu") := by
  refine ⟨determineClosestServer_const, fun fetchUpstream request h => ?_⟩
  refine ⟨_, handleRequestLogged_redirect fetchUpstream request h, ?_, ?_⟩
  · show some ("https://" ++ determineClosestServer request.cf ++
      request.pathname ++ request.search) = _
    rw [determineClosestServer_const,
      show ("https://" ++ "eu.streammy.io" : String) = "https://eu.streammy.io"
        by decide]
  · show some (splitHead (determineClosestServer request.cf)) = some "eu"
    rw [determineClosestServer_const]
    decide

/-- Witness for C10 at a concrete redirect request. -/
theorem c10_constant_hostname_witness :
    (⟨"live.streammy.io", "/x", "?y=1", some ⟨some "AU", some "OC"⟩⟩ :
        GeoRequest).hostname = "live.streammy.io" ∧
    (∃ resp, handleRequestLogged (fun _ => Except.error "upstream")
        ⟨"live.streammy.io", "/x", "?y=1", some ⟨some "AU", some "OC"⟩⟩ =
          Except.ok resp ∧
      getHeader resp "Location" =
        some ("https://eu.streammy.io" ++ "/x" ++ "?y=1") ∧
      getHeader resp "X-Streammy-Region" = some "eu") :=
  ⟨rfl, c10_constant_hostname.2 (fun _ => Except.error "upstream")
    ⟨"live.streammy.io", "/x", "?y=1", some ⟨some "AU", some "OC"⟩⟩ rfl⟩

end GeoRouting
